import Mathlib

/-!
# Verification of the crypto-tracker fetch/cache/summarize pipeline

Shallow embedding of `src/app.py`: the two fetch functions
(`fetch_current_price`, `fetch_historical_prices`), the statistical summary
computed over a history series, and the TTL cache provided by the
`st.cache_data(ttl=600)` decorator.

Modelling conventions:
- Prices are exact rationals (`Rat`), standing for the script's numeric values.
- An upstream HTTP response is a status code together with an optional parsed
  JSON body; `none` for the body means the response bytes are not valid JSON
  (in which case `response.json()` raises).
- A fetch function that can raise is embedded as `Except String _`; the
  `Except.error` case corresponds to a Python exception escaping to the caller.
- User-visible notices (`st.warning` / `st.error`) are collected in a list
  returned alongside the result.
- A pandas datetime produced by `pd.to_datetime(ts, unit="ms")` is represented
  by its count of nanoseconds since the epoch (pandas' internal unit).
-/

/-- A user-visible notice emitted through the UI side channel
(`st.warning` or `st.error` in `src/app.py`). -/
inductive Notice where
  | warning (msg : String) : Notice
  | error (msg : String) : Notice
deriving DecidableEq, Repr

/-- `src/app.py` lines 23 and 42: the rate-limit warning text. -/
def rateLimitMsg : String := "Rate limit exceeded. Please try again later."

/-- `src/app.py` line 26: the error text for a failing current-price request. -/
def currentPriceErrMsg (status : Nat) : String :=
  "Error fetching current price: " ++ toString status

/-- `src/app.py` line 44: the error text for a failing history request. -/
def historyErrMsg (status : Nat) : String :=
  "Error fetching historical data: " ++ toString status

/-- The exception raised by `response.json()` on a body that is not valid
JSON (`requests.exceptions.JSONDecodeError`). -/
def jsonDecodeErrMsg : String := "JSONDecodeError"

/-- The JSON body of a `/simple/price` response: a mapping from coin id to a
mapping from field name (currency, `{currency}_market_cap`,
`{currency}_24h_change`) to a number. -/
abbrev PriceBody := List (String × List (String × Rat))

/-- An upstream response to the current-price request: HTTP status code and
the parsed JSON body (`none` when the body is not valid JSON). -/
structure PriceResponse where
  status : Nat
  json : Option PriceBody

/-- The JSON body of a `/coins/{id}/market_chart` response: it may or may not
contain a `"prices"` field, a list of `[timestamp_ms, price]` pairs. -/
structure HistBody where
  prices : Option (List (Int × Rat))
deriving DecidableEq, Repr

/-- An upstream response to the market-chart request: HTTP status code and
the parsed JSON body (`none` when the body is not valid JSON). -/
structure HistResponse where
  status : Nat
  json : Option HistBody

/-- `pd.to_datetime(ms, unit="ms")` on line 39: the epoch-millisecond value
becomes a pandas timestamp, represented here by nanoseconds since the epoch. -/
def to_datetime_ns (ms : Int) : Int := ms * 1000000

/-- One row of the dataframe returned by `fetch_historical_prices`
(columns `date` and `price`, line 40 of `src/app.py`). -/
structure PricePoint where
  date : Int
  price : Rat
deriving DecidableEq, Repr

/-- `fetch_current_price` (`src/app.py` lines 16-27), as a function of the
upstream response. Status 200: parse the body (raising on invalid JSON) and
return it unmodified with no notice. Status 429: warning notice and empty
mapping. Any other status: error notice and empty mapping. -/
def fetch_current_price (resp : PriceResponse) : Except String (PriceBody × List Notice) :=
  if resp.status = 200 then
    match resp.json with
    | some body => Except.ok (body, [])
    | none => Except.error jsonDecodeErrMsg
  else if resp.status = 429 then
    Except.ok ([], [Notice.warning rateLimitMsg])
  else
    Except.ok ([], [Notice.error (currentPriceErrMsg resp.status)])

/-- `fetch_historical_prices` (`src/app.py` lines 31-45), as a function of the
upstream response. Status 200: parse the body (raising on invalid JSON); if it
has a `"prices"` field, build the dataframe of (date, price) rows preserving
upstream order; otherwise fall through to an empty dataframe with no notice.
Status 429: warning notice and empty dataframe. Any other status: error notice
and empty dataframe. -/
def fetch_historical_prices (resp : HistResponse) : Except String (List PricePoint × List Notice) :=
  if resp.status = 200 then
    match resp.json with
    | none => Except.error jsonDecodeErrMsg
    | some data =>
      match data.prices with
      | some ps => Except.ok (ps.map (fun q => ⟨to_datetime_ns q.1, q.2⟩), [])
      | none => Except.ok ([], [])
  else if resp.status = 429 then
    Except.ok ([], [Notice.warning rateLimitMsg])
  else
    Except.ok ([], [Notice.error (historyErrMsg resp.status)])

/-- `df["price"].max()` (line 116): maximum of a list of prices. -/
def seriesMax : List Rat → Rat
  | [] => 0
  | [x] => x
  | x :: y :: t => max x (seriesMax (y :: t))

/-- `df["price"].min()` (line 117): minimum of a list of prices. -/
def seriesMin : List Rat → Rat
  | [] => 0
  | [x] => x
  | x :: y :: t => min x (seriesMin (y :: t))

/-- Sum of a list of prices (used by `df["price"].mean()` on line 118). -/
def seriesSum : List Rat → Rat
  | [] => 0
  | x :: t => x + seriesSum t

/-- One row of the statistical-summary table built on lines 116-120 of
`src/app.py` (the coin label column is carried separately by the caller). -/
structure SummaryRow where
  max_price : Rat
  min_price : Rat
  avg_price : Rat
  price_change : Rat
deriving DecidableEq, Repr

/-- The per-coin body of the summary loop (`src/app.py` lines 115-120): if the
series is empty no row is appended; otherwise the row holds max, min, mean of
the price column and the percent change computed from the first and last rows
in series order (`iloc[0]` and `iloc[-1]`). `Rat` division is total, so the
`first = 0` case yields the unguarded quotient rather than an exception, as
numpy float division by zero yields a value (with a runtime warning), not an
exception. -/
def summarize (s : List PricePoint) : Option SummaryRow :=
  match s with
  | [] => none
  | p :: ps =>
    let prices := (p :: ps).map PricePoint.price
    some { max_price := seriesMax prices,
           min_price := seriesMin prices,
           avg_price := seriesSum prices / (prices.length : Rat),
           price_change :=
             (((p :: ps).getLast (List.cons_ne_nil p ps)).price - p.price) / p.price * 100 }

/-- Modelled from the spec: the cache key of the `st.cache_data` decorator
(not part of this repository) — function identity plus the call parameters
(asset id, currency, and day-count when applicable), per spec section 3. -/
structure CacheKey where
  func : String
  coin_id : String
  currency : String
  days : Option Nat
deriving DecidableEq, Repr

/-- The cache expiry window: `ttl=600` on lines 15 and 30 of `src/app.py`. -/
def CACHE_TTL : Nat := 600

/-- Modelled from the spec: a cache table is a list of entries, each holding a
key, the cached value, and the time it was stored. -/
abbrev CacheTable (α : Type) := List (CacheKey × α × Nat)

/-- Modelled from the spec: look up a key in the cache table at time `now`;
an entry is live while fewer than `CACHE_TTL` seconds have passed since it
was stored. -/
def cacheLookup {α : Type} (entries : CacheTable α) (k : CacheKey) (now : Nat) : Option α :=
  match entries.find? (fun e => decide (e.1 = k) && decide (now < e.2.2 + CACHE_TTL)) with
  | some e => some e.2.1
  | none => none

/-- Modelled from the spec: one memoized call. On a live cached entry, return
the cached value with no network request (third component `false`); on a miss,
perform the network fetch (`fetched` is the value the network would return),
store it, and report that a network request happened (`true`). -/
def cachedCall {α : Type} (entries : CacheTable α) (k : CacheKey) (now : Nat)
    (fetched : α) : α × CacheTable α × Bool :=
  match cacheLookup entries k now with
  | some v => (v, entries, false)
  | none => (fetched, (k, fetched, now) :: entries, true)

/-- The cache key of a `fetch_historical_prices(coin_id, currency, days)` call. -/
def histCacheKey (coin_id currency : String) (days : Nat) : CacheKey :=
  ⟨"fetch_historical_prices", coin_id, currency, some days⟩

/-- The cache key of a `fetch_current_price(coin_id, currency)` call. -/
def priceCacheKey (coin_id currency : String) : CacheKey :=
  ⟨"fetch_current_price", coin_id, currency, none⟩

/-- C1: round-trip through the pipeline. On the fabricated upstream body
`{"prices": [[0, 100], [86400000, 110]]}` with success status,
`fetch_historical_prices` yields the 2-point series with dates at epoch 0 and
epoch plus one day (86400 * 10^9 ns) and prices 100 and 110 in that order, and
`summarize` on that series yields max = 110, min = 100, mean = 105,
change_percent = 10. -/
theorem c1_roundtrip :
    fetch_historical_prices ⟨200, some ⟨some [((0 : Int), (100 : Rat)), ((86400000 : Int), (110 : Rat))]⟩⟩ =
      Except.ok ([⟨0, 100⟩, ⟨86400 * 1000000000, 110⟩], []) ∧
    summarize [⟨0, 100⟩, ⟨86400 * 1000000000, 110⟩] = some ⟨110, 100, 105, 10⟩ := by
  constructor
  · rfl
  · simp [summarize, seriesMax, seriesMin, seriesSum]
    norm_num

/-- C2: for every non-empty series whose first price is non-zero, the
percent-change field of the summary row is computed from the first and last
points in series order. -/
theorem c2_change_percent (S : List PricePoint) (h : S ≠ [])
    (h0 : (S.head h).price ≠ 0) :
    ∃ row, summarize S = some row ∧
      row.price_change = ((S.getLast h).price - (S.head h).price) / (S.head h).price * 100 := by
  cases S with
  | nil => exact absurd rfl h
  | cons p ps => exact ⟨_, rfl, rfl⟩

/-- Witness for C2 at the concrete series [(0, 100), (86400000000000, 110)]:
the summary row exists and its percent change is 10. -/
theorem c2_change_percent_witness :
    ∃ row, summarize [⟨0, 100⟩, ⟨86400000000000, 110⟩] = some row ∧ row.price_change = 10 := by
  obtain ⟨row, hrow, hch⟩ :=
    c2_change_percent [⟨0, 100⟩, ⟨86400000000000, 110⟩] (by simp) (by norm_num)
  refine ⟨row, hrow, ?_⟩
  rw [hch]
  norm_num

/-- Every member of a price list is bounded above by `seriesMax`. -/
theorem le_seriesMax : ∀ (l : List Rat), ∀ x ∈ l, x ≤ seriesMax l
  | [y], x, hx => by
    rcases List.mem_singleton.mp hx with rfl
    exact le_of_eq rfl
  | y :: z :: t, x, hx => by
    rcases List.mem_cons.mp hx with rfl | h
    · exact le_max_left _ _
    · exact le_trans (le_seriesMax (z :: t) x h) (le_max_right _ _)

/-- Every member of a price list is bounded below by `seriesMin`. -/
theorem seriesMin_le : ∀ (l : List Rat), ∀ x ∈ l, seriesMin l ≤ x
  | [y], x, hx => by
    rcases List.mem_singleton.mp hx with rfl
    exact le_of_eq rfl
  | y :: z :: t, x, hx => by
    rcases List.mem_cons.mp hx with rfl | h
    · exact min_le_left _ _
    · exact le_trans (min_le_right _ _) (seriesMin_le (z :: t) x h)

/-- C5: for every non-empty series, the summary row's max bounds every price
from above and its min bounds every price from below. -/
theorem c5_max_min_bounds (S : List PricePoint) (row : SummaryRow)
    (hrow : summarize S = some row) :
    ∀ p ∈ S, row.min_price ≤ p.price ∧ p.price ≤ row.max_price := by
  cases S with
  | nil => exact absurd hrow (by simp [summarize])
  | cons q qs =>
    intro p hp
    have hmem : p.price ∈ (q :: qs).map PricePoint.price := List.mem_map_of_mem _ hp
    have hrow' : row = { max_price := seriesMax ((q :: qs).map PricePoint.price),
                         min_price := seriesMin ((q :: qs).map PricePoint.price),
                         avg_price := seriesSum ((q :: qs).map PricePoint.price) /
                           (((q :: qs).map PricePoint.price).length : Rat),
                         price_change :=
                           (((q :: qs).getLast (List.cons_ne_nil q qs)).price - q.price) /
                             q.price * 100 } := by
      have := hrow.symm
      simpa [summarize] using this
    rw [hrow']
    exact ⟨seriesMin_le _ _ hmem, le_seriesMax _ _ hmem⟩

/-- Witness for C5 at the concrete series [(0, 100), (1, 110)] and its summary
row, evaluated at the first point. -/
theorem c5_max_min_bounds_witness :
    summarize [⟨0, 100⟩, ⟨1, 110⟩] = some ⟨110, 100, 105, 10⟩ ∧
    ((100 : Rat) ≤ 100 ∧ (100 : Rat) ≤ 110) := by
  have hrow : summarize [⟨0, 100⟩, ⟨1, 110⟩] = some ⟨110, 100, 105, 10⟩ := by
    simp [summarize, seriesMax, seriesMin, seriesSum]
    norm_num
  have h := c5_max_min_bounds [⟨0, 100⟩, ⟨1, 110⟩] ⟨110, 100, 105, 10⟩ hrow ⟨0, 100⟩ (by simp)
  exact ⟨hrow, h.1, h.2⟩

/-- C7: a success-status response whose JSON body lacks the `"prices"` field
yields an empty series and no notice at all. -/
theorem c7_malformed_silent (resp : HistResponse)
    (hs : resp.status = 200) (hb : resp.json = some ⟨none⟩) :
    fetch_historical_prices resp = Except.ok ([], []) := by
  simp [fetch_historical_prices, hs, hb]

/-- Witness for C7 at the concrete response with status 200 and body `{}`. -/
theorem c7_malformed_silent_witness :
    fetch_historical_prices ⟨200, some ⟨none⟩⟩ = Except.ok ([], []) :=
  c7_malformed_silent ⟨200, some ⟨none⟩⟩ rfl rfl

/-- C8: the summary of the empty series is absent, and the empty upstream body
`{}` (success status, no `"prices"` field) yields the empty series — so its
summary is absent. -/
theorem c8_empty_absent :
    summarize ([] : List PricePoint) = none ∧
    fetch_historical_prices ⟨200, some ⟨none⟩⟩ = Except.ok ([], []) :=
  ⟨rfl, rfl⟩

/-- C3: status taxonomy of the fetch layer. A 429 response makes either
fetcher emit exactly one warning notice (never an error notice) and return the
empty result; any other non-success status makes it emit exactly one
error-level notice and return the empty result. -/
theorem c3_status_taxonomy (rp : PriceResponse) (rh : HistResponse) :
    (rp.status = 429 →
      fetch_current_price rp = Except.ok ([], [Notice.warning rateLimitMsg])) ∧
    (rp.status ≠ 200 → rp.status ≠ 429 →
      fetch_current_price rp = Except.ok ([], [Notice.error (currentPriceErrMsg rp.status)])) ∧
    (rh.status = 429 →
      fetch_historical_prices rh = Except.ok ([], [Notice.warning rateLimitMsg])) ∧
    (rh.status ≠ 200 → rh.status ≠ 429 →
      fetch_historical_prices rh = Except.ok ([], [Notice.error (historyErrMsg rh.status)])) := by
  refine ⟨fun h429 => ?_, fun h200 h429 => ?_, fun h429 => ?_, fun h200 h429 => ?_⟩
  · simp [fetch_current_price, h429]
  · simp [fetch_current_price, h200, h429]
  · simp [fetch_historical_prices, h429]
  · simp [fetch_historical_prices, h200, h429]

/-- Witness for C3 at status 429 and status 500 for both fetchers. -/
theorem c3_status_taxonomy_witness :
    fetch_current_price ⟨429, none⟩ = Except.ok ([], [Notice.warning rateLimitMsg]) ∧
    fetch_current_price ⟨500, none⟩ = Except.ok ([], [Notice.error (currentPriceErrMsg 500)]) ∧
    fetch_historical_prices ⟨429, none⟩ = Except.ok ([], [Notice.warning rateLimitMsg]) ∧
    fetch_historical_prices ⟨500, none⟩ = Except.ok ([], [Notice.error (historyErrMsg 500)]) := by
  have h1 := c3_status_taxonomy ⟨429, none⟩ ⟨429, none⟩
  have h2 := c3_status_taxonomy ⟨500, none⟩ ⟨500, none⟩
  exact ⟨h1.1 rfl, h2.2.1 (by decide) (by decide), h1.2.2.1 rfl,
    h2.2.2.2 (by decide) (by decide)⟩

/-- C6 counterexample: a success-status response whose body is not valid JSON
makes `response.json()` raise, so both fetchers propagate an exception instead
of returning an empty result — refuting "never raise for any status, any
body". -/
theorem c6_counterexample :
    fetch_current_price ⟨200, none⟩ = Except.error jsonDecodeErrMsg ∧
    fetch_historical_prices ⟨200, none⟩ = Except.error jsonDecodeErrMsg :=
  ⟨rfl, rfl⟩

/-- C6 (amended): for every upstream response whose success-status body is
valid JSON, the fetchers never raise: every failure is returned as an empty
mapping or series, distinguished only by side-channel notices. -/
theorem c6_no_raise (rp : PriceResponse) (rh : HistResponse)
    (hp : rp.status = 200 → rp.json ≠ none)
    (hh : rh.status = 200 → rh.json ≠ none) :
    (∃ v, fetch_current_price rp = Except.ok v) ∧
    (∃ w, fetch_historical_prices rh = Except.ok w) := by
  constructor
  · by_cases h200 : rp.status = 200
    · rcases hj : rp.json with _ | body
      · exact absurd hj (hp h200)
      · exact ⟨(body, []), by simp [fetch_current_price, h200, hj]⟩
    · by_cases h429 : rp.status = 429
      · exact ⟨([], [Notice.warning rateLimitMsg]),
          by simp [fetch_current_price, h200, h429]⟩
      · exact ⟨([], [Notice.error (currentPriceErrMsg rp.status)]),
          by simp [fetch_current_price, h200, h429]⟩
  · by_cases h200 : rh.status = 200
    · rcases hj : rh.json with _ | body
      · exact absurd hj (hh h200)
      · rcases hps : body.prices with _ | ps
        · exact ⟨([], []), by simp [fetch_historical_prices, h200, hj, hps]⟩
        · exact ⟨(ps.map (fun q => ⟨to_datetime_ns q.1, q.2⟩), []),
            by simp [fetch_historical_prices, h200, hj, hps]⟩
    · by_cases h429 : rh.status = 429
      · exact ⟨([], [Notice.warning rateLimitMsg]),
          by simp [fetch_historical_prices, h200, h429]⟩
      · exact ⟨([], [Notice.error (historyErrMsg rh.status)]),
          by simp [fetch_historical_prices, h200, h429]⟩

/-- Witness for C6 (amended) at a JSON success response for the price fetcher
and a plain 404 for the history fetcher. -/
theorem c6_no_raise_witness :
    (∃ v, fetch_current_price ⟨200, some []⟩ = Except.ok v) ∧
    (∃ w, fetch_historical_prices ⟨404, none⟩ = Except.ok w) :=
  c6_no_raise ⟨200, some []⟩ ⟨404, none⟩ (fun _ => by simp) (fun h => by simp at h)

/-- C9 counterexample: the upstream body `{"prices": []}` has success status
and a `"prices"` field, yet the returned series is empty — refuting "the
series is non-empty for every successful call, empty exactly on failure". -/
theorem c9_counterexample :
    ¬ (∀ (resp : HistResponse), resp.status = 200 →
        (∃ ps, resp.json = some ⟨some ps⟩) →
        ∀ out notices, fetch_historical_prices resp = Except.ok (out, notices) →
          out ≠ []) := by
  intro hclaim
  exact hclaim ⟨200, some ⟨some []⟩⟩ rfl ⟨[], rfl⟩ [] [] rfl rfl

/-- C9 (amended): for every successful `fetch_history` call (success status
and a body with a `"prices"` field), the returned series has exactly one point
per upstream pair and no notice is emitted; in particular it is non-empty
whenever the upstream `"prices"` array is non-empty. -/
theorem c9_success_series (resp : HistResponse) (ps : List (Int × Rat))
    (hs : resp.status = 200) (hb : resp.json = some ⟨some ps⟩) :
    ∃ out, fetch_historical_prices resp = Except.ok (out, []) ∧
      out.length = ps.length ∧ (ps ≠ [] → out ≠ []) := by
  refine ⟨ps.map (fun q => ⟨to_datetime_ns q.1, q.2⟩), ?_, ?_, ?_⟩
  · simp [fetch_historical_prices, hs, hb]
  · simp
  · intro hne
    simpa using hne

/-- Witness for C9 (amended) at the one-point body `{"prices": [[0, 100]]}`. -/
theorem c9_success_series_witness :
    ∃ out, fetch_historical_prices ⟨200, some ⟨some [((0 : Int), (100 : Rat))]⟩⟩ =
        Except.ok (out, []) ∧
      out.length = 1 ∧ ([((0 : Int), (100 : Rat))] ≠ [] → out ≠ []) :=
  c9_success_series ⟨200, some ⟨some [((0 : Int), (100 : Rat))]⟩⟩
    [((0 : Int), (100 : Rat))] rfl rfl

/-- C10: a non-empty series whose first price is zero still produces a summary
row: max, min and mean are computed normally, and the percent-change slot
holds the unguarded quotient of the division by the zero first price. -/
theorem c10_zero_first_price (S : List PricePoint) (h : S ≠ [])
    (h0 : (S.head h).price = 0) :
    ∃ row, summarize S = some row ∧
      row.max_price = seriesMax (S.map PricePoint.price) ∧
      row.min_price = seriesMin (S.map PricePoint.price) ∧
      row.avg_price = seriesSum (S.map PricePoint.price) / ((S.map PricePoint.price).length : Rat) ∧
      row.price_change = ((S.getLast h).price - (S.head h).price) / (S.head h).price * 100 := by
  cases S with
  | nil => exact absurd rfl h
  | cons p ps => exact ⟨_, rfl, rfl, rfl, rfl, rfl⟩

/-- Witness for C10 at the series [(0, 0), (1, 5)] whose first price is 0. -/
theorem c10_zero_first_price_witness :
    ∃ row, summarize [⟨0, 0⟩, ⟨1, 5⟩] = some row ∧
      row.price_change = ((5 : Rat) - 0) / 0 * 100 := by
  obtain ⟨row, h1, _, _, _, h5⟩ :=
    c10_zero_first_price [⟨0, 0⟩, ⟨1, 5⟩] (by simp) rfl
  refine ⟨row, h1, ?_⟩
  rw [h5]
  norm_num

/-- C4: cache semantics. After a call at time `t1` that misses the cache (and
hence fetches and stores), a second call with the same key at any `t2` within
the 600-second window returns the same value with no network request — whatever
the network would have returned the second time. Moreover the stored entry
leaves lookups of every other key unchanged, and history cache keys differing
in currency or day-count are distinct keys. -/
theorem c4_cache_semantics (α : Type) (entries : CacheTable α) (k k2 : CacheKey)
    (t1 t2 : Nat) (v w : α)
    (hmiss : cacheLookup entries k t1 = none)
    (_h12 : t1 ≤ t2) (hwin : t2 < t1 + CACHE_TTL) (hne : k2 ≠ k) :
    (cachedCall ((cachedCall entries k t1 v).2.1) k t2 w).1 = (cachedCall entries k t1 v).1 ∧
    (cachedCall ((cachedCall entries k t1 v).2.1) k t2 w).2.2 = false ∧
    (∀ t, cacheLookup ((cachedCall entries k t1 v).2.1) k2 t = cacheLookup entries k2 t) ∧
    (∀ coin cur1 cur2 d1 d2, cur1 ≠ cur2 ∨ d1 ≠ d2 →
      histCacheKey coin cur1 d1 ≠ histCacheKey coin cur2 d2) := by
  have hstore : (cachedCall entries k t1 v).2.1 = (k, v, t1) :: entries := by
    simp [cachedCall, hmiss]
  have hval : (cachedCall entries k t1 v).1 = v := by
    simp [cachedCall, hmiss]
  have hhit : cacheLookup ((k, v, t1) :: entries) k t2 = some v := by
    simp [cacheLookup, List.find?, hwin]
  refine ⟨?_, ?_, ?_, ?_⟩
  · rw [hstore, hval]
    simp [cachedCall, hhit]
  · rw [hstore]
    simp [cachedCall, hhit]
  · intro t
    rw [hstore]
    simp [cacheLookup, List.find?, Ne.symm hne]
  · intro coin cur1 cur2 d1 d2 hd heq
    rcases hd with hd | hd
    · exact hd (congrArg CacheKey.currency heq)
    · exact hd (Option.some_injective _ (congrArg CacheKey.days heq))

/-- Witness for C4: starting from the empty cache, a call for
("bitcoin", "usd", 7 days) at time 0 followed by one at time 599 returns the
stored value 5 (not the fresh network value 6) with no network request; the
("bitcoin", "eur", 7 days) key is still unstored; and the usd and eur keys are
distinct. -/
theorem c4_cache_semantics_witness :
    (cachedCall ((cachedCall ([] : CacheTable Nat) (histCacheKey "bitcoin" "usd" 7) 0 5).2.1)
        (histCacheKey "bitcoin" "usd" 7) 599 6).1 = 5 ∧
    (cachedCall ((cachedCall ([] : CacheTable Nat) (histCacheKey "bitcoin" "usd" 7) 0 5).2.1)
        (histCacheKey "bitcoin" "usd" 7) 599 6).2.2 = false ∧
    cacheLookup ((cachedCall ([] : CacheTable Nat) (histCacheKey "bitcoin" "usd" 7) 0 5).2.1)
        (histCacheKey "bitcoin" "eur" 7) 599 = none ∧
    histCacheKey "bitcoin" "usd" 7 ≠ histCacheKey "bitcoin" "eur" 7 := by
  have h := c4_cache_semantics Nat [] (histCacheKey "bitcoin" "usd" 7)
    (histCacheKey "bitcoin" "eur" 7) 0 599 5 6 rfl (by decide) (by decide) (by decide)
  refine ⟨?_, h.2.1, ?_, ?_⟩
  · exact h.1.trans rfl
  · exact (h.2.2.1 599).trans rfl
  · exact h.2.2.2 "bitcoin" "usd" "eur" 7 7 (Or.inl (by decide))
